import Mathlib

/-!
Shallow embedding of the PrivateShare P2P transfer engine.

The source is a single React component (src/unnamed/part_000) plus a small
types module. The embedding models the component state as one structure
`AppState` (the component keeps all protocol state in one place: React
state hooks plus refs), each event handler as a pure state transformer,
and the asynchronous chunk upload loop as a pure function producing the
list of chunk payloads and the list of progress reports it would emit.

Two ghost fields instrument observable effects that the claims talk about:
`sentPackets` records every `conn.send` call in order, and `progressLog`
records every `setProgress` call in order. All other fields correspond
one-to-one to state hooks or refs of the component.
-/

namespace PrivateShare

/-- TransferState enum from types (src/unnamed/part_000 lines 1-9). -/
inductive TransferState where
  | IDLE
  | CONNECTING
  | CONNECTED
  | WAITING_APPROVAL
  | TRANSFERRING
  | COMPLETED
  | FAILED
deriving DecidableEq, Repr

/-- FileMetadata from types: name, size (bytes), mime type. -/
structure FileMetadata where
  name : String
  size : Nat
  type : String
deriving DecidableEq, Repr

/-- A browser File object, modelled by its name, its byte content and its
mime type. Bytes are naturals (the embedding never needs the 0..255 bound). -/
structure JSFile where
  name : String
  bytes : List Nat
  type : String
deriving DecidableEq, Repr

/-- The size of a File is the byte length of its content. -/
def JSFile.size (f : JSFile) : Nat := f.bytes.length

/-- DataPacket: the tagged wire messages. The type union in the source lists
handshake, approve, reject, file-meta, file-chunk, file-end and file-whole;
the component additionally sends file-start and heartbeat packets (the cast
to DataPacket in the handlers is unchecked), so they are constructors here. -/
inductive DataPacket where
  | handshake
  | approve
  | reject
  | fileMeta (payload : FileMetadata)
  | fileStart
  | fileChunk (payload : List Nat)
  | fileEnd
  | fileWhole
  | heartbeat
deriving DecidableEq, Repr

/-- Chunk size constant from the source: 32 KiB. -/
def CHUNK_SIZE : Nat := 32 * 1024

/-- Backpressure high-water mark from the source: 1 MiB. The pure model
keeps it for reference; backpressure only delays sends and changes no
observable output, so it does not appear in the transition functions. -/
def MAX_BUFFER_AMOUNT : Nat := 1024 * 1024

/-- Heartbeat period in milliseconds (setInterval argument in startHeartbeat). -/
def heartbeatIntervalMs : Nat := 2000

/-- Connect timeout in milliseconds (setTimeout argument in connectToPeer). -/
def connectTimeoutMs : Nat := 10000

/-- JavaScript Math.round applied to the non-negative ratio num / den:
floor of num / den + 1 / 2, i.e. (2 num + den) / (2 den) in integer
division. When den = 0 this definition yields 0; the source only divides
by a size that is positive in every scenario the claims exercise. -/
def jsRound (num den : Nat) : Nat := (2 * num + den) / (2 * den)

/-- Component state. Fields mirror the React state hooks and refs:
status, statusMessage, progress, selectedFile, incomingMeta,
receivedFileUrl (modelled as the assembled artifact bytes),
receivedChunks and receivedSize (the receive-buffer refs),
connSet (connRef.current is non-null), connOpen (connRef.current.open),
heartbeatActive (heartbeatRef.current is a live interval).
sentPackets and progressLog are ghost traces of conn.send and setProgress. -/
structure AppState where
  status : TransferState
  statusMessage : String
  progress : Nat
  selectedFile : Option JSFile
  incomingMeta : Option FileMetadata
  receivedFileUrl : Option (List Nat)
  receivedChunks : List (List Nat)
  receivedSize : Nat
  connSet : Bool
  connOpen : Bool
  heartbeatActive : Bool
  sentPackets : List DataPacket
  progressLog : List Nat
deriving DecidableEq, Repr

/-- Initial component state (the useState initial values; refs start null). -/
def initialState : AppState :=
  { status := .IDLE
    statusMessage := "Initializing..."
    progress := 0
    selectedFile := none
    incomingMeta := none
    receivedFileUrl := none
    receivedChunks := []
    receivedSize := 0
    connSet := false
    connOpen := false
    heartbeatActive := false
    sentPackets := []
    progressLog := [] }

/-- setProgress: updates the progress hook; the ghost log records the call. -/
def setProgress (s : AppState) (p : Nat) : AppState :=
  { s with progress := p, progressLog := s.progressLog ++ [p] }

/-- The chunk list produced by the while loop of startChunkedUpload:
while offset < file.size, slice [offset, offset + CHUNK_SIZE) and advance.
file.slice never reads past the end, exactly like List.take on the tail. -/
def chunkLoop (file : List Nat) (offset : Nat) : List (List Nat) :=
  if offset < file.length then
    ((file.drop offset).take CHUNK_SIZE) :: chunkLoop file (offset + CHUNK_SIZE)
  else []
termination_by file.length - offset
decreasing_by
  simp only [CHUNK_SIZE]
  omega

/-- The sender progress value reported for a given offset:
min(100, Math.round(offset / file.size * 100)). -/
def pct (file : List Nat) (offset : Nat) : Nat :=
  min 100 (jsRound (offset * 100) file.length)

/-- The list of progress reports emitted by the while loop of
startChunkedUpload: each iteration advances the offset by CHUNK_SIZE
first and then reports pct at the advanced offset. -/
def senderProgress (file : List Nat) (offset : Nat) : List Nat :=
  if offset < file.length then
    pct file (offset + CHUNK_SIZE) :: senderProgress file (offset + CHUNK_SIZE)
  else []
termination_by file.length - offset
decreasing_by
  simp only [CHUNK_SIZE]
  omega

/-- startChunkedUpload (source lines 337-388). Guards mirror the source:
return if connRef.current is null or no file is selected. The loop is
modelled atomically with the channel openness observed on entry: when the
channel is open the loop runs to completion, sending file-start, every
chunk, then file-end, logging one progress value per chunk, and the status
ends at COMPLETED; when the channel is not open, file-start is still sent,
and the first loop iteration (if any) aborts to FAILED, while an empty
file skips the loop and completes. -/
def startChunkedUpload (s : AppState) : AppState :=
  match s.selectedFile with
  | none => s
  | some f =>
    if s.connSet = false then s
    else
      let s1 := { s with
                  status := .TRANSFERRING
                  statusMessage := "Starting transfer..."
                  sentPackets := s.sentPackets ++ [DataPacket.fileStart] }
      if s.connOpen then
        { s1 with
          status := .COMPLETED
          statusMessage := "Sent Successfully!"
          sentPackets := s1.sentPackets ++ (chunkLoop f.bytes 0).map DataPacket.fileChunk ++ [DataPacket.fileEnd]
          progressLog := s1.progressLog ++ senderProgress f.bytes 0
          progress := (senderProgress f.bytes 0).getLastD s.progress }
      else if f.bytes.length = 0 then
        { s1 with
          status := .COMPLETED
          statusMessage := "Sent Successfully!"
          sentPackets := s1.sentPackets ++ [DataPacket.fileEnd] }
      else
        { s1 with status := .FAILED, statusMessage := "Connection lost during transfer" }

/-- requestSend (lines 319-335): send file-meta built from the selected
file and move to WAITING_APPROVAL; no-op without connection or file. -/
def requestSend (s : AppState) : AppState :=
  match s.connSet, s.selectedFile with
  | true, some f =>
    { s with
      sentPackets := s.sentPackets ++ [DataPacket.fileMeta ⟨f.name, f.size, f.type⟩]
      status := .WAITING_APPROVAL
      statusMessage := "Waiting for acceptance..." }
  | _, _ => s

/-- acceptTransfer (lines 390-400): guarded on a non-null, open connection;
sends approve and moves to TRANSFERRING. -/
def acceptTransfer (s : AppState) : AppState :=
  if s.connSet = false then s
  else if s.connOpen = false then s
  else
    { s with
      sentPackets := s.sentPackets ++ [DataPacket.approve]
      status := .TRANSFERRING
      statusMessage := "Connecting to transfer..." }

/-- rejectTransfer (lines 402-408): sends reject, clears the incoming
descriptor, returns to IDLE. -/
def rejectTransfer (s : AppState) : AppState :=
  if s.connSet = false then s
  else
    { s with
      sentPackets := s.sentPackets ++ [DataPacket.reject]
      incomingMeta := none
      status := .IDLE
      statusMessage := "Request declined." }

/-- reset (lines 410-419), modelling the confirmed branch of the dialog:
clears status, incoming descriptor, received url, selected file, progress
and status message. Note that the receive-buffer refs are NOT touched. -/
def reset (s : AppState) : AppState :=
  { s with
    status := .IDLE
    incomingMeta := none
    receivedFileUrl := none
    selectedFile := none
    progress := 0
    statusMessage := "Online. Connect via Same Wi-Fi." }

/-- stopHeartbeat (lines 102-107): clears the interval. -/
def stopHeartbeat (s : AppState) : AppState :=
  { s with heartbeatActive := false }

/-- The data handler installed by handleIncomingConnection
(lines 178-219), one branch per packet tag; unknown tags fall through.
URL.createObjectURL of the assembled Blob is modelled as the concatenated
bytes of the buffered chunks; the Blob type tag is presentation only. -/
def handleData (s : AppState) (p : DataPacket) : AppState :=
  match p with
  | .fileMeta m =>
    { s with incomingMeta := some m, status := .WAITING_APPROVAL }
  | .fileStart =>
    let s1 := { s with
                status := .TRANSFERRING
                statusMessage := "Receiving file..."
                receivedChunks := []
                receivedSize := 0 }
    setProgress s1 0
  | .fileChunk chunk =>
    let s1 := { s with
                receivedChunks := s.receivedChunks ++ [chunk]
                receivedSize := s.receivedSize + chunk.length }
    match s1.incomingMeta with
    | some m => setProgress s1 (jsRound (s1.receivedSize * 100) m.size)
    | none => s1
  | .fileEnd =>
    match s.incomingMeta with
    | some _ =>
      let s1 := { s with
                  receivedFileUrl := some s.receivedChunks.flatten
                  status := .COMPLETED
                  statusMessage := "File received successfully!" }
      setProgress s1 100
    | none => s
  | .reject =>
    { s with status := .IDLE, statusMessage := "Transfer cancelled.", incomingMeta := none }
  | _ => s

/-- Receiver-side session events: the connection event (which installs the
handlers and runs the body of handleIncomingConnection), inbound data,
channel close and error, a firing of the heartbeat interval, the user
decisions, reset, and component teardown (the effect cleanup). -/
inductive ReceiverEvent where
  | connection
  | data (p : DataPacket)
  | connClose
  | connError
  | heartbeatTick
  | userAccept
  | userReject
  | userReset
  | teardown
deriving DecidableEq, Repr

/-- One receiver-side event step. connection: connRef set, CONNECTED,
heartbeat started, receive buffer cleared (lines 167-176). close: stop
heartbeat, IDLE, connRef nulled (lines 221-226). error: FAILED only
(lines 228-231) - the heartbeat interval is not cleared there. The
heartbeat interval callback checks conn.open at fire time (lines 95-99). -/
def receiverStep (s : AppState) (e : ReceiverEvent) : AppState :=
  match e with
  | .connection =>
    { s with
      connSet := true
      connOpen := true
      status := .CONNECTED
      statusMessage := "Connected to sender"
      heartbeatActive := true
      receivedChunks := []
      receivedSize := 0 }
  | .data p => handleData s p
  | .connClose =>
    { s with
      heartbeatActive := false
      status := .IDLE
      statusMessage := "Sender disconnected."
      connSet := false
      connOpen := false }
  | .connError =>
    { s with status := .FAILED, statusMessage := "Connection error occurred." }
  | .heartbeatTick =>
    if s.heartbeatActive then
      if s.connOpen then { s with sentPackets := s.sentPackets ++ [DataPacket.heartbeat] } else s
    else s
  | .userAccept => acceptTransfer s
  | .userReject => rejectTransfer s
  | .userReset => reset s
  | .teardown => stopHeartbeat s

/-- Sender-side session events: file selection, channel open, inbound
data, the send request, the force-start button, the 2 second timer
scheduled by the reject branch, the 10 second connect timeout, channel
close and error, and a firing of the heartbeat interval. -/
inductive SenderEvent where
  | selectFile (f : JSFile)
  | connOpen
  | data (p : DataPacket)
  | requestSendEv
  | forceStart
  | rejectTimer
  | connectTimeout
  | connClose
  | connError
  | heartbeatTick
deriving DecidableEq, Repr

/-- One sender-side event step, from connectToPeer (lines 235-283) and the
render handlers: open handler sets connRef and CONNECTED and starts the
heartbeat; the data handler starts the chunked upload on approve and goes
FAILED on reject, scheduling the 2 second return to CONNECTED; forceStart
is the FORCE START button which calls startChunkedUpload directly; the
10 second timeout callback tests connRef.current?.open === false, which is
false whenever connRef.current is null (optional chaining yields
undefined), so it only fires when connRef is set and not open. -/
def senderStep (s : AppState) (e : SenderEvent) : AppState :=
  match e with
  | .selectFile f => { s with selectedFile := some f }
  | .connOpen =>
    { s with
      connSet := true
      connOpen := true
      status := .CONNECTED
      statusMessage := "Connected! Select a file."
      heartbeatActive := true }
  | .data p =>
    match p with
    | .approve => startChunkedUpload s
    | .reject => { s with status := .FAILED, statusMessage := "Receiver rejected." }
    | _ => s
  | .requestSendEv => requestSend s
  | .forceStart => startChunkedUpload s
  | .rejectTimer => { s with status := .CONNECTED }
  | .connectTimeout =>
    if s.connSet = true ∧ s.connOpen = false then
      { s with status := .FAILED, statusMessage := "Connection timed out. Check ID." }
    else s
  | .connClose =>
    let s1 := { s with heartbeatActive := false, connOpen := false }
    if s.status = .COMPLETED then s1
    else { s1 with status := .IDLE, statusMessage := "Connection closed." }
  | .connError =>
    { s with status := .FAILED, statusMessage := "Connection failed. Check ID." }
  | .heartbeatTick =>
    if s.heartbeatActive then
      if s.connOpen then { s with sentPackets := s.sentPackets ++ [DataPacket.heartbeat] } else s
    else s

/-- connectToPeer entry effect (lines 238-239): CONNECTING. -/
def connectToPeer (s : AppState) : AppState :=
  { s with status := .CONNECTING, statusMessage := "Connecting..." }

/-- Fold a list of inbound packets through the receiver data handler. -/
def processMessages (s : AppState) (msgs : List DataPacket) : AppState :=
  msgs.foldl handleData s

/-- Fold a list of sender events through the sender step function. -/
def runSender (s : AppState) (evs : List SenderEvent) : AppState :=
  evs.foldl senderStep s

/-- Fold a list of receiver events through the receiver step function. -/
def runReceiver (s : AppState) (evs : List ReceiverEvent) : AppState :=
  evs.foldl receiverStep s

/-- Total byte length of a list of chunks. -/
def totalLen (cs : List (List Nat)) : Nat := (cs.map List.length).sum

/-- The descriptor the sender builds from a selected file in requestSend. -/
def senderMeta (f : JSFile) : FileMetadata := ⟨f.name, f.size, f.type⟩

/-- The honest wire sequence a receiver sees for one approved transfer of
file f: the offer, then transferBegin, then the chunks in order. -/
def honestPrefix (f : JSFile) : List DataPacket :=
  .fileMeta (senderMeta f) :: .fileStart :: (chunkLoop f.bytes 0).map DataPacket.fileChunk

/-! Helper lemmas about the chunk engine. -/

/-- The chunks produced from a given offset concatenate to the tail of the
file at that offset: the loop neither drops, duplicates nor reorders bytes. -/
theorem chunkLoop_flatten (file : List Nat) (offset : Nat) :
    (chunkLoop file offset).flatten = file.drop offset := by
  rw [chunkLoop]
  split
  · rw [List.flatten_cons, chunkLoop_flatten file (offset + CHUNK_SIZE)]
    rw [← List.drop_drop, List.take_append_drop]
  · rename_i h
    simp only [List.flatten_nil]
    exact (List.drop_eq_nil_of_le (by omega)).symm
termination_by file.length - offset
decreasing_by
  simp only [CHUNK_SIZE]
  omega

/-- Whole-file corollary: the chunk list reassembles to the file itself. -/
theorem chunkLoop_flatten_zero (file : List Nat) :
    (chunkLoop file 0).flatten = file := by
  simpa using chunkLoop_flatten file 0

/-- The chunk byte counts sum to the file length. -/
theorem totalLen_chunkLoop (file : List Nat) :
    totalLen (chunkLoop file 0) = file.length := by
  rw [totalLen, ← List.length_flatten, chunkLoop_flatten_zero]

/-- The sequence of progress values the receiver reports while consuming a
list of chunks, starting from a given accumulated byte count, against a
descriptor of the given size: one Math.round((acc + len) / size * 100)
report per chunk, with the accumulator threaded through. -/
def receiverLog (size : Nat) : Nat → List (List Nat) → List Nat
  | _, [] => []
  | acc, c :: cs =>
    jsRound ((acc + c.length) * 100) size :: receiverLog size (acc + c.length) cs

/-- Folding the data handler over a list of chunk packets, with a
descriptor on record: the buffer grows by exactly those chunks in order,
the running total grows by their total length, the progress log grows by
one report per chunk, and nothing else changes. -/
theorem processMessages_chunks (cs : List (List Nat)) :
    ∀ s : AppState, ∀ m : FileMetadata, s.incomingMeta = some m →
    (processMessages s (cs.map DataPacket.fileChunk)).incomingMeta = some m ∧
    (processMessages s (cs.map DataPacket.fileChunk)).status = s.status ∧
    (processMessages s (cs.map DataPacket.fileChunk)).receivedChunks
      = s.receivedChunks ++ cs ∧
    (processMessages s (cs.map DataPacket.fileChunk)).receivedSize
      = s.receivedSize + totalLen cs ∧
    (processMessages s (cs.map DataPacket.fileChunk)).receivedFileUrl
      = s.receivedFileUrl ∧
    (processMessages s (cs.map DataPacket.fileChunk)).sentPackets
      = s.sentPackets ∧
    (processMessages s (cs.map DataPacket.fileChunk)).progressLog
      = s.progressLog ++ receiverLog m.size s.receivedSize cs := by
  induction cs with
  | nil =>
    intro s m hm
    simp [processMessages, totalLen, hm, receiverLog]
  | cons c cs ih =>
    intro s m hm
    set s1 : AppState := setProgress
        { s with
          receivedChunks := s.receivedChunks ++ [c]
          receivedSize := s.receivedSize + c.length }
        (jsRound ((s.receivedSize + c.length) * 100) m.size) with hs1
    have hrw : processMessages s ((c :: cs).map DataPacket.fileChunk)
        = processMessages s1 (cs.map DataPacket.fileChunk) := by
      simp [processMessages, handleData, hm, hs1]
    obtain ⟨i1, i2, i3, i4, i5, i6, i7⟩ := ih s1 m (by simp [hs1, setProgress, hm])
    refine ⟨?_, ?_, ?_, ?_, ?_, ?_, ?_⟩
    · rw [hrw, i1]
    · rw [hrw, i2]; simp [hs1, setProgress]
    · rw [hrw, i3]; simp [hs1, setProgress]
    · rw [hrw, i4]; simp [hs1, setProgress, totalLen]; omega
    · rw [hrw, i5]; simp [hs1, setProgress]
    · rw [hrw, i6]; simp [hs1, setProgress]
    · rw [hrw, i7]; simp [hs1, setProgress, receiverLog]

/-- Effect of the file-end branch of the data handler when a descriptor is
on record: assemble the buffered chunks in order into the artifact, expose
it, move to COMPLETED, and report progress 100. No size comparison occurs. -/
theorem handleData_fileEnd_some (s : AppState) (m : FileMetadata)
    (hm : s.incomingMeta = some m) :
    (handleData s DataPacket.fileEnd).receivedFileUrl = some s.receivedChunks.flatten ∧
    (handleData s DataPacket.fileEnd).status = .COMPLETED ∧
    (handleData s DataPacket.fileEnd).progress = 100 ∧
    (handleData s DataPacket.fileEnd).progressLog = s.progressLog ++ [100] := by
  simp [handleData, hm, setProgress]

/-- C1: round-trip fidelity. For every file transferred with the 32 KiB
chunk size, after the sender loop chunks are all processed by the receiver
(and before transferEnd) the accumulated byte count equals the file size,
and the artifact assembled on transferEnd is exactly the concatenation of
the chunks in arrival order, which is the original file, of byte length
equal to the file size. -/
theorem C1_roundtrip_fidelity (f : JSFile) (s0 : AppState) :
    CHUNK_SIZE = 32 * 1024 ∧
    (processMessages s0 (honestPrefix f)).receivedSize = f.size ∧
    (handleData (processMessages s0 (honestPrefix f)) DataPacket.fileEnd).receivedFileUrl
      = some ((chunkLoop f.bytes 0).flatten) ∧
    (chunkLoop f.bytes 0).flatten = f.bytes ∧
    ((chunkLoop f.bytes 0).flatten).length = f.size := by
  have hrw : processMessages s0 (honestPrefix f)
      = processMessages
          (handleData (handleData s0 (DataPacket.fileMeta (senderMeta f))) DataPacket.fileStart)
          ((chunkLoop f.bytes 0).map DataPacket.fileChunk) := by
    simp [honestPrefix, processMessages]
  have hmeta : (handleData (handleData s0 (DataPacket.fileMeta (senderMeta f)))
      DataPacket.fileStart).incomingMeta = some (senderMeta f) := by
    simp [handleData, setProgress]
  have hchunks0 : (handleData (handleData s0 (DataPacket.fileMeta (senderMeta f)))
      DataPacket.fileStart).receivedChunks = [] := by
    simp [handleData, setProgress]
  have hsize0 : (handleData (handleData s0 (DataPacket.fileMeta (senderMeta f)))
      DataPacket.fileStart).receivedSize = 0 := by
    simp [handleData, setProgress]
  obtain ⟨i1, i2, i3, i4, i5, i6, i7⟩ :=
    processMessages_chunks (chunkLoop f.bytes 0) _ _ hmeta
  refine ⟨rfl, ?_, ?_, chunkLoop_flatten_zero f.bytes, ?_⟩
  · rw [hrw, i4, hsize0, totalLen_chunkLoop]
    simp [JSFile.size]
  · rw [hrw]
    obtain ⟨e1, e2, e3, e4⟩ := handleData_fileEnd_some _ _ i1
    rw [e1, i3, hchunks0]
    simp
  · rw [chunkLoop_flatten_zero]
    rfl

/-- Concrete receiver state for C3: a descriptor of size 100 is on record
while only one byte (one chunk) sits in the receive buffer. -/
def c3state : AppState :=
  { initialState with
    status := .TRANSFERRING
    incomingMeta := some ⟨"a.bin", 100, "application/octet-stream"⟩
    receivedChunks := [[7]]
    receivedSize := 1 }

/-- C3 counterexample: a transferEnd arriving while the accumulated byte
count (1) differs from the descriptor size (100) still transitions the
session to COMPLETED and exposes the short artifact: no size validation
guards completion. -/
theorem C3_counterexample :
    c3state.status = .TRANSFERRING ∧
    c3state.incomingMeta = some ⟨"a.bin", 100, "application/octet-stream"⟩ ∧
    c3state.receivedSize = 1 ∧
    c3state.receivedSize ≠ 100 ∧
    (handleData c3state DataPacket.fileEnd).status = .COMPLETED ∧
    (handleData c3state DataPacket.fileEnd).receivedFileUrl = some [7] := by
  exact ⟨rfl, rfl, rfl, by decide, rfl, rfl⟩

/-- C3 amended: for every receiver session, receiving transferEnd
transitions to Completed, assembles the buffered chunks into the artifact
and exposes it whenever a descriptor is on record; the descriptor size is
not compared with the accumulated byte count, so completion is not
validated against it. -/
theorem C3_transferEnd_completes_with_descriptor (s : AppState) (m : FileMetadata)
    (hm : s.incomingMeta = some m) :
    (handleData s DataPacket.fileEnd).status = .COMPLETED ∧
    (handleData s DataPacket.fileEnd).receivedFileUrl = some s.receivedChunks.flatten ∧
    (handleData s DataPacket.fileEnd).progress = 100 := by
  obtain ⟨e1, e2, e3, e4⟩ := handleData_fileEnd_some s m hm
  exact ⟨e2, e1, e3⟩

/-- C3 witness: the amended theorem applied at the concrete state. -/
theorem C3_transferEnd_completes_with_descriptor_witness :
    c3state.incomingMeta = some ⟨"a.bin", 100, "application/octet-stream"⟩ ∧
    ((handleData c3state DataPacket.fileEnd).status = .COMPLETED ∧
     (handleData c3state DataPacket.fileEnd).receivedFileUrl
       = some c3state.receivedChunks.flatten ∧
     (handleData c3state DataPacket.fileEnd).progress = 100) :=
  ⟨rfl, C3_transferEnd_completes_with_descriptor c3state ⟨"a.bin", 100, "application/octet-stream"⟩ rfl⟩

/-- Concrete receiver state for C4: mid-transfer with no descriptor on
record (the sender never offered, for example after a force start with no
preceding file-meta). -/
def c4state : AppState :=
  { initialState with
    status := .TRANSFERRING
    receivedChunks := [[1]]
    receivedSize := 1 }

/-- C4 counterexample: transferEnd with no descriptor on record leaves the
state entirely unchanged - in particular the session stays TRANSFERRING
and does not transition to FAILED. -/
theorem C4_counterexample :
    c4state.incomingMeta = none ∧
    handleData c4state DataPacket.fileEnd = c4state ∧
    (handleData c4state DataPacket.fileEnd).status = .TRANSFERRING ∧
    (handleData c4state DataPacket.fileEnd).status ≠ .FAILED := by
  exact ⟨rfl, rfl, rfl, by decide⟩

/-- C4 amended: a transferEnd arriving with no descriptor on record is
silently ignored: the state is unchanged (so no empty artifact is
produced, but no Failed transition happens either). -/
theorem C4_transferEnd_without_descriptor_ignored (s : AppState)
    (hm : s.incomingMeta = none) :
    handleData s DataPacket.fileEnd = s := by
  simp [handleData, hm]

/-- C4 witness: the amended theorem applied at the concrete state. -/
theorem C4_transferEnd_without_descriptor_ignored_witness :
    c4state.incomingMeta = none ∧ handleData c4state DataPacket.fileEnd = c4state :=
  ⟨rfl, C4_transferEnd_without_descriptor_ignored c4state rfl⟩

/-- Concrete state for C6: a completed transfer whose receive buffer still
holds three bytes in one chunk. -/
def c6state : AppState :=
  { initialState with
    status := .COMPLETED
    receivedChunks := [[1, 2, 3]]
    receivedSize := 3
    receivedFileUrl := some [1, 2, 3]
    progress := 100 }

/-- C6 counterexample: reset from COMPLETED leaves the buffered chunks and
the accumulated byte count untouched: the receive buffer is not cleared
and the byte count is not returned to 0. -/
theorem C6_counterexample :
    c6state.status = .COMPLETED ∧
    (reset c6state).status = .IDLE ∧
    (reset c6state).receivedChunks = [[1, 2, 3]] ∧
    (reset c6state).receivedChunks ≠ [] ∧
    (reset c6state).receivedSize = 3 := by
  exact ⟨rfl, rfl, rfl, by decide, rfl⟩

/-- C6 amended: reset from Completed or Failed yields phase Idle with the
pending descriptor absent, progress 0, the selected file and the exposed
artifact cleared; the receive buffer and its accumulated byte count are
NOT cleared by reset (they are cleared only by a new incoming connection
or by a transferBegin). -/
theorem C6_reset_partial_cleanup (s : AppState)
    (h : s.status = .COMPLETED ∨ s.status = .FAILED) :
    (reset s).status = .IDLE ∧
    (reset s).incomingMeta = none ∧
    (reset s).progress = 0 ∧
    (reset s).selectedFile = none ∧
    (reset s).receivedFileUrl = none ∧
    (reset s).receivedChunks = s.receivedChunks ∧
    (reset s).receivedSize = s.receivedSize := by
  simp [reset]

/-- C6 witness: the amended theorem applied at the concrete state. -/
theorem C6_reset_partial_cleanup_witness :
    (c6state.status = .COMPLETED ∨ c6state.status = .FAILED) ∧
    ((reset c6state).status = .IDLE ∧
     (reset c6state).incomingMeta = none ∧
     (reset c6state).progress = 0 ∧
     (reset c6state).selectedFile = none ∧
     (reset c6state).receivedFileUrl = none ∧
     (reset c6state).receivedChunks = c6state.receivedChunks ∧
     (reset c6state).receivedSize = c6state.receivedSize) :=
  ⟨Or.inl rfl, C6_reset_partial_cleanup c6state (Or.inl rfl)⟩

/-- C7: the 10 second connect timeout callback tests
connRef.current?.open === false, but connRef.current is assigned only in
the open handler, so when the channel never opens within the timeout the
test sees undefined and the session stays in CONNECTING instead of
transitioning to FAILED: the intended timeout transition is dead code on
the fresh-sender path. -/
theorem C7_connect_timeout_dead_when_never_opened :
    (connectToPeer initialState).status = .CONNECTING ∧
    (connectToPeer initialState).connSet = false ∧
    senderStep (connectToPeer initialState) SenderEvent.connectTimeout
      = connectToPeer initialState ∧
    (senderStep (connectToPeer initialState) SenderEvent.connectTimeout).status
      = .CONNECTING ∧
    connectTimeoutMs = 10000 := by
  refine ⟨rfl, rfl, ?_, ?_, rfl⟩ <;> simp [senderStep, connectToPeer, initialState]

/-! Numeric lemmas about the progress computations. -/

/-- Math.round of a ratio is monotone in the numerator. -/
theorem jsRound_mono (a b d : Nat) (h : a ≤ b) : jsRound a d ≤ jsRound b d :=
  Nat.div_le_div_right (by omega)

/-- Math.round of 0 / d is 0 (also under the d = 0 convention). -/
theorem jsRound_zero (d : Nat) : jsRound 0 d = 0 := by
  unfold jsRound
  rcases Nat.eq_zero_or_pos d with h | h
  · subst h; simp
  · exact Nat.div_eq_of_lt (by omega)

/-- Math.round((a / s) * 100) is at most 100 whenever a ≤ s. -/
theorem jsRound_le_100 (a s : Nat) (h : a ≤ s) : jsRound (a * 100) s ≤ 100 := by
  unfold jsRound
  rcases Nat.eq_zero_or_pos s with hs | hs
  · subst hs
    simp
  · have h2 : 2 * (a * 100) + s < 101 * (2 * s) := by omega
    exact Nat.le_of_lt_succ ((Nat.div_lt_iff_lt_mul (by omega)).2 h2)

/-- The sender progress value is monotone in the offset. -/
theorem pct_mono (file : List Nat) (a b : Nat) (h : a ≤ b) :
    pct file a ≤ pct file b :=
  min_le_min (le_refl 100) (jsRound_mono _ _ _ (by omega))

/-- The sender progress value never exceeds 100 (the min cap). -/
theorem pct_le_100 (file : List Nat) (a : Nat) : pct file a ≤ 100 :=
  min_le_left 100 _

/-- The progress reports of the sender loop from any offset form a
non-decreasing chain, anchored below by the progress value at that offset. -/
theorem senderProgress_chain (file : List Nat) (offset : Nat) :
    List.Chain' (· ≤ ·) (pct file offset :: senderProgress file offset) := by
  rw [senderProgress]
  split
  · rw [List.chain'_cons]
    exact ⟨pct_mono file offset (offset + CHUNK_SIZE) (by omega),
      senderProgress_chain file (offset + CHUNK_SIZE)⟩
  · simp
termination_by file.length - offset
decreasing_by
  simp only [CHUNK_SIZE]
  omega

/-- Every progress report of the sender loop is at most 100. -/
theorem senderProgress_le_100 (file : List Nat) (offset : Nat) :
    ∀ x ∈ senderProgress file offset, x ≤ 100 := by
  rw [senderProgress]
  split
  · intro x hx
    rcases List.mem_cons.1 hx with h | h
    · subst h; exact pct_le_100 file _
    · exact senderProgress_le_100 file (offset + CHUNK_SIZE) x h
  · simp
termination_by file.length - offset
decreasing_by
  simp only [CHUNK_SIZE]
  omega

/-- The receiver progress reports form a non-decreasing chain, anchored
below by the report value at the starting accumulator. -/
theorem receiverLog_chain (size : Nat) (cs : List (List Nat)) :
    ∀ acc : Nat,
    List.Chain' (· ≤ ·) (jsRound (acc * 100) size :: receiverLog size acc cs) := by
  induction cs with
  | nil => intro acc; simp [receiverLog]
  | cons c cs ih =>
    intro acc
    rw [receiverLog, List.chain'_cons]
    exact ⟨jsRound_mono _ _ _ (by omega), ih (acc + c.length)⟩

/-- Every receiver progress report is at most 100 as long as the bytes
delivered (accumulator plus remaining chunk lengths) fit the descriptor. -/
theorem receiverLog_le_100 (size : Nat) (cs : List (List Nat)) :
    ∀ acc : Nat, acc + totalLen cs ≤ size →
    ∀ x ∈ receiverLog size acc cs, x ≤ 100 := by
  induction cs with
  | nil => intro acc _ x hx; simp [receiverLog] at hx
  | cons c cs ih =>
    intro acc hle x hx
    rw [receiverLog] at hx
    rcases List.mem_cons.1 hx with h | h
    · subst h
      refine jsRound_le_100 _ _ ?_
      simp [totalLen] at hle
      omega
    · refine ih (acc + c.length) ?_ x h
      simp [totalLen] at hle ⊢
      omega

/-- The full sequence of progress values the receiver reports during one
honest transfer of file f: 0 on transferBegin, one report per chunk, and
100 on transferEnd. -/
def receiverReports (f : JSFile) : List Nat :=
  0 :: receiverLog f.size 0 (chunkLoop f.bytes 0) ++ [100]

/-- C5: progress values are integers in [0, 100] and monotonically
non-decreasing within one transfer, for the sender (each report computed
as min(100, round(offset / size * 100))) and for the receiver (report 0 at
transferBegin, round(accumulated / descriptor.size * 100) per chunk, 100
at transferEnd). Values are naturals, hence at least 0 by construction. -/
theorem C5_progress_monotone_bounded (f : JSFile) (s0 : AppState) :
    List.Chain' (· ≤ ·) (senderProgress f.bytes 0) ∧
    (∀ x ∈ senderProgress f.bytes 0, x ≤ 100) ∧
    (handleData (processMessages s0 (honestPrefix f)) DataPacket.fileEnd).progressLog
      = s0.progressLog ++ receiverReports f ∧
    List.Chain' (· ≤ ·) (receiverReports f) ∧
    (∀ x ∈ receiverReports f, x ≤ 100) := by
  have hsenderchain :=
    (List.chain'_cons'.1 (senderProgress_chain f.bytes 0)).2
  have hbound : ∀ x ∈ receiverLog f.size 0 (chunkLoop f.bytes 0), x ≤ 100 := by
    refine receiverLog_le_100 f.size (chunkLoop f.bytes 0) 0 ?_
    rw [totalLen_chunkLoop]
    simp [JSFile.size]
  have hrchain : List.Chain' (· ≤ ·) (0 :: receiverLog f.size 0 (chunkLoop f.bytes 0)) := by
    have := receiverLog_chain f.size (chunkLoop f.bytes 0) 0
    simpa [jsRound_zero] using this
  refine ⟨hsenderchain, senderProgress_le_100 f.bytes 0, ?_, ?_, ?_⟩
  · have hrw : processMessages s0 (honestPrefix f)
        = processMessages
            (handleData (handleData s0 (DataPacket.fileMeta (senderMeta f)))
              DataPacket.fileStart)
            ((chunkLoop f.bytes 0).map DataPacket.fileChunk) := by
      simp [honestPrefix, processMessages]
    have hmeta : (handleData (handleData s0 (DataPacket.fileMeta (senderMeta f)))
        DataPacket.fileStart).incomingMeta = some (senderMeta f) := by
      simp [handleData, setProgress]
    have hlog0 : (handleData (handleData s0 (DataPacket.fileMeta (senderMeta f)))
        DataPacket.fileStart).progressLog = s0.progressLog ++ [0] := by
      simp [handleData, setProgress]
    have hsize0 : (handleData (handleData s0 (DataPacket.fileMeta (senderMeta f)))
        DataPacket.fileStart).receivedSize = 0 := by
      simp [handleData, setProgress]
    obtain ⟨i1, i2, i3, i4, i5, i6, i7⟩ :=
      processMessages_chunks (chunkLoop f.bytes 0) _ _ hmeta
    obtain ⟨e1, e2, e3, e4⟩ := handleData_fileEnd_some _ _ i1
    rw [hrw]
    rw [e4, i7, hlog0, hsize0]
    simp [receiverReports, senderMeta, JSFile.size]
  · rw [receiverReports]
    rw [List.chain'_append]
    refine ⟨hrchain, List.chain'_singleton 100, ?_⟩
    intro x hx y hy
    simp at hy
    subst hy
    have hx2 : x ∈ 0 :: receiverLog f.size 0 (chunkLoop f.bytes 0) :=
      List.mem_of_mem_getLast? hx
    rcases List.mem_cons.1 hx2 with h | h
    · omega
    · exact hbound x h
  · intro x hx
    rw [receiverReports] at hx
    rcases List.mem_append.1 hx with h | h
    · rcases List.mem_cons.1 h with h2 | h2
      · omega
      · exact hbound x h2
    · simp at h
      omega

/-! Safety machinery for the chunk-before-approve property. -/

/-- Any single sender event other than a received approve and the
force-start override adds no chunk packet to the send trace. -/
theorem senderStep_no_new_chunk (s : AppState) (e : SenderEvent)
    (he1 : e ≠ SenderEvent.forceStart)
    (he2 : e ≠ SenderEvent.data DataPacket.approve)
    (c : List Nat) (hc : DataPacket.fileChunk c ∉ s.sentPackets) :
    DataPacket.fileChunk c ∉ (senderStep s e).sentPackets := by
  cases e with
  | selectFile f => simpa [senderStep] using hc
  | connOpen => simpa [senderStep] using hc
  | data p =>
    cases p with
    | approve => exact absurd rfl he2
    | reject => simpa [senderStep] using hc
    | handshake => simpa [senderStep] using hc
    | fileMeta m => simpa [senderStep] using hc
    | fileStart => simpa [senderStep] using hc
    | fileChunk c2 => simpa [senderStep] using hc
    | fileEnd => simpa [senderStep] using hc
    | fileWhole => simpa [senderStep] using hc
    | heartbeat => simpa [senderStep] using hc
  | requestSendEv =>
    cases hcs : s.connSet with
    | false => simpa [senderStep, requestSend, hcs] using hc
    | true =>
      cases hsel : s.selectedFile with
      | none => simpa [senderStep, requestSend, hcs, hsel] using hc
      | some f => simp [senderStep, requestSend, hcs, hsel, hc]
  | forceStart => exact absurd rfl he1
  | rejectTimer => simpa [senderStep] using hc
  | connectTimeout =>
    simp only [senderStep]
    split
    · simpa using hc
    · exact hc
  | connClose =>
    simp only [senderStep]
    split
    · simpa using hc
    · simpa using hc
  | connError => simpa [senderStep] using hc
  | heartbeatTick =>
    simp only [senderStep]
    split
    · split
      · simp [hc]
      · exact hc
    · exact hc

/-- A sender run over events containing neither a received approve nor a
force start never puts a chunk packet into the send trace, provided the
starting trace holds none. -/
theorem runSender_no_chunk (evs : List SenderEvent) :
    ∀ s : AppState,
    (∀ e ∈ evs, e ≠ SenderEvent.forceStart ∧ e ≠ SenderEvent.data DataPacket.approve) →
    (∀ c, DataPacket.fileChunk c ∉ s.sentPackets) →
    ∀ c, DataPacket.fileChunk c ∉ (runSender s evs).sentPackets := by
  induction evs with
  | nil =>
    intro s _ hs c
    simpa [runSender] using hs c
  | cons e evs ih =>
    intro s he hs c
    have h1 : runSender s (e :: evs) = runSender (senderStep s e) evs := by
      simp [runSender]
    rw [h1]
    refine ih (senderStep s e) (fun x hx => he x (List.mem_cons_of_mem e hx)) ?_ c
    intro c2
    exact senderStep_no_new_chunk s e (he e (List.mem_cons_self e evs)).1
      (he e (List.mem_cons_self e evs)).2 c2 (hs c2)

/-- The file sent in the C2 scenario: one byte. -/
def c2file : JSFile := ⟨"a.txt", [42], "text/plain"⟩

/-- The C2 scenario: the sender selects a file, the channel opens, the
offer is sent, then the user presses FORCE START; no approve ever arrives. -/
def c2events : List SenderEvent :=
  [SenderEvent.selectFile c2file, SenderEvent.connOpen, SenderEvent.requestSendEv,
   SenderEvent.forceStart]

/-- C2 counterexample: in a run whose events contain no received approve,
the sender nevertheless emits a chunk packet, because the FORCE START
button invokes the chunked upload directly. -/
theorem C2_counterexample :
    (∀ e ∈ c2events, e ≠ SenderEvent.data DataPacket.approve) ∧
    DataPacket.fileChunk [42]
      ∈ (runSender (connectToPeer initialState) c2events).sentPackets := by
  constructor
  · decide
  · have h1 : chunkLoop [42] 0 = [[42]] := by
      rw [chunkLoop]
      norm_num
      rw [chunkLoop]
      norm_num [CHUNK_SIZE]
    simp [runSender, c2events, senderStep, connectToPeer, initialState, requestSend,
      startChunkedUpload, c2file, h1]

/-- C2 amended: for every sequence of caller intents and inbound messages
that contains no force-start intent and no received approve, the sender
session started by connectToPeer never sends a chunk packet; hence, in any
force-start-free run, no chunk precedes the first received approve. -/
theorem C2_no_chunk_before_approve (evs : List SenderEvent)
    (hno : ∀ e ∈ evs, e ≠ SenderEvent.forceStart ∧ e ≠ SenderEvent.data DataPacket.approve) :
    ∀ c, DataPacket.fileChunk c ∉ (runSender (connectToPeer initialState) evs).sentPackets := by
  refine runSender_no_chunk evs (connectToPeer initialState) hno ?_
  intro c
  simp [connectToPeer, initialState]

/-- C2 witness: the amended theorem applied to a concrete approve-free run. -/
theorem C2_no_chunk_before_approve_witness :
    (∀ e ∈ [SenderEvent.connOpen, SenderEvent.requestSendEv],
      e ≠ SenderEvent.forceStart ∧ e ≠ SenderEvent.data DataPacket.approve) ∧
    ∀ c, DataPacket.fileChunk c
      ∉ (runSender (connectToPeer initialState)
          [SenderEvent.connOpen, SenderEvent.requestSendEv]).sentPackets :=
  ⟨by decide, C2_no_chunk_before_approve _ (by decide)⟩

/-- The file offered in the C8 scenario. -/
def c8file : JSFile := ⟨"b.txt", [9], "text/plain"⟩

/-- Sender state in the C8 scenario: offer sent, waiting for approval. -/
def c8sender : AppState :=
  { initialState with
    status := .WAITING_APPROVAL
    selectedFile := some c8file
    connSet := true
    connOpen := true
    heartbeatActive := true }

/-- Receiver state in the C8 scenario: offer on record, waiting for the
user decision. -/
def c8receiver : AppState :=
  { initialState with
    status := .WAITING_APPROVAL
    incomingMeta := some ⟨"b.txt", 1, "text/plain"⟩
    connSet := true
    connOpen := true
    heartbeatActive := true }

/-- C8 counterexample: after the sender processes the reject (and the
2 second timer restores CONNECTED), its selected-file descriptor is still
present: the sender side does not clear its descriptor on reject. -/
theorem C8_counterexample :
    c8sender.status = .WAITING_APPROVAL ∧
    (runSender c8sender [SenderEvent.data DataPacket.reject,
        SenderEvent.rejectTimer]).status = .CONNECTED ∧
    (runSender c8sender [SenderEvent.data DataPacket.reject,
        SenderEvent.rejectTimer]).selectedFile = some c8file ∧
    (runSender c8sender [SenderEvent.data DataPacket.reject,
        SenderEvent.rejectTimer]).selectedFile ≠ none := by
  exact ⟨rfl, rfl, rfl, by decide⟩

/-- C8 amended: when the receiver rejects an offer, it sends reject,
clears its stored descriptor and returns to Idle; the sender, on receiving
reject in WaitingApproval, first goes to Failed and returns to Connected
when the 2 second timer fires, sends nothing further for that offer (in
particular no chunks), but keeps its selected file: the descriptor is NOT
cleared on the sender side. -/
theorem C8_reject_flow (r s : AppState)
    (hr : r.connSet = true)
    (hs : s.status = .WAITING_APPROVAL) :
    (rejectTransfer r).status = .IDLE ∧
    (rejectTransfer r).incomingMeta = none ∧
    (rejectTransfer r).sentPackets = r.sentPackets ++ [DataPacket.reject] ∧
    (runSender s [SenderEvent.data DataPacket.reject]).status = .FAILED ∧
    (runSender s [SenderEvent.data DataPacket.reject,
        SenderEvent.rejectTimer]).status = .CONNECTED ∧
    (runSender s [SenderEvent.data DataPacket.reject,
        SenderEvent.rejectTimer]).selectedFile = s.selectedFile ∧
    (runSender s [SenderEvent.data DataPacket.reject,
        SenderEvent.rejectTimer]).sentPackets = s.sentPackets := by
  refine ⟨?_, ?_, ?_, ?_, ?_, ?_, ?_⟩ <;>
    simp [rejectTransfer, hr, runSender, senderStep]

/-- C8 witness: the amended theorem applied at the concrete states. -/
theorem C8_reject_flow_witness :
    c8receiver.connSet = true ∧
    c8sender.status = .WAITING_APPROVAL ∧
    ((rejectTransfer c8receiver).status = .IDLE ∧
     (rejectTransfer c8receiver).incomingMeta = none ∧
     (rejectTransfer c8receiver).sentPackets
       = c8receiver.sentPackets ++ [DataPacket.reject] ∧
     (runSender c8sender [SenderEvent.data DataPacket.reject]).status = .FAILED ∧
     (runSender c8sender [SenderEvent.data DataPacket.reject,
         SenderEvent.rejectTimer]).status = .CONNECTED ∧
     (runSender c8sender [SenderEvent.data DataPacket.reject,
         SenderEvent.rejectTimer]).selectedFile = c8sender.selectedFile ∧
     (runSender c8sender [SenderEvent.data DataPacket.reject,
         SenderEvent.rejectTimer]).sentPackets = c8sender.sentPackets) :=
  ⟨rfl, rfl, C8_reject_flow c8receiver c8sender rfl rfl⟩

/-- Receiver state for C9: connected, heartbeat monitor running. -/
def c9state : AppState :=
  { initialState with
    status := .CONNECTED
    connSet := true
    connOpen := true
    heartbeatActive := true }

/-- C9 counterexample: a channel error transitions the session to FAILED
but leaves the heartbeat interval running: the monitor does NOT stop
unconditionally on channel error. -/
theorem C9_counterexample :
    c9state.heartbeatActive = true ∧
    (receiverStep c9state ReceiverEvent.connError).status = .FAILED ∧
    (receiverStep c9state ReceiverEvent.connError).heartbeatActive = true := by
  exact ⟨rfl, rfl, rfl⟩

/-- C9 amended: the heartbeat interval fires every 2 seconds; the monitor
is stopped by a channel close and by session teardown, but NOT by a
channel error; nevertheless no heartbeat is ever sent on a channel that is
not open, because the callback checks openness at fire time, and a firing
with the channel open and the monitor active emits exactly one heartbeat. -/
theorem C9_heartbeat_monitor (s t u v : AppState)
    (ht : t.connOpen = false)
    (hv1 : v.connOpen = true) (hv2 : v.heartbeatActive = true) :
    heartbeatIntervalMs = 2000 ∧
    (receiverStep s ReceiverEvent.connClose).heartbeatActive = false ∧
    (stopHeartbeat u).heartbeatActive = false ∧
    receiverStep t ReceiverEvent.heartbeatTick = t ∧
    (receiverStep v ReceiverEvent.heartbeatTick).sentPackets
      = v.sentPackets ++ [DataPacket.heartbeat] := by
  refine ⟨rfl, rfl, rfl, ?_, ?_⟩
  · simp [receiverStep, ht]
  · simp [receiverStep, hv1, hv2]

/-- C9 witness: the amended theorem applied at concrete states. -/
theorem C9_heartbeat_monitor_witness :
    initialState.connOpen = false ∧
    c9state.connOpen = true ∧
    c9state.heartbeatActive = true ∧
    (heartbeatIntervalMs = 2000 ∧
     (receiverStep c9state ReceiverEvent.connClose).heartbeatActive = false ∧
     (stopHeartbeat c9state).heartbeatActive = false ∧
     receiverStep initialState ReceiverEvent.heartbeatTick = initialState ∧
     (receiverStep c9state ReceiverEvent.heartbeatTick).sentPackets
       = c9state.sentPackets ++ [DataPacket.heartbeat]) :=
  ⟨rfl, rfl, rfl, C9_heartbeat_monitor c9state initialState c9state c9state rfl rfl rfl⟩

/-- C10: a zero-byte file. The sender upload sends transferBegin
immediately followed by transferEnd, zero chunk packets in between,
reports no progress value (the loop body containing the division by
file.size never runs), and completes; a receiver holding the size-0
descriptor ends COMPLETED with a zero-length artifact. -/
theorem C10_empty_file_transfer (s r : AppState) (f : JSFile) (n ty : String)
    (h1 : s.connSet = true) (h2 : s.connOpen = true)
    (h3 : s.selectedFile = some f) (h4 : f.bytes = []) :
    (startChunkedUpload s).sentPackets
      = s.sentPackets ++ [DataPacket.fileStart, DataPacket.fileEnd] ∧
    (startChunkedUpload s).progressLog = s.progressLog ∧
    (startChunkedUpload s).status = .COMPLETED ∧
    (processMessages r [DataPacket.fileMeta ⟨n, 0, ty⟩, DataPacket.fileStart,
        DataPacket.fileEnd]).status = .COMPLETED ∧
    (processMessages r [DataPacket.fileMeta ⟨n, 0, ty⟩, DataPacket.fileStart,
        DataPacket.fileEnd]).receivedFileUrl = some [] ∧
    (processMessages r [DataPacket.fileMeta ⟨n, 0, ty⟩, DataPacket.fileStart,
        DataPacket.fileEnd]).incomingMeta = some ⟨n, 0, ty⟩ := by
  have hcl : chunkLoop f.bytes 0 = [] := by
    rw [chunkLoop]
    simp [h4]
  have hsp : senderProgress f.bytes 0 = [] := by
    rw [senderProgress]
    simp [h4]
  refine ⟨?_, ?_, ?_, ?_, ?_, ?_⟩ <;>
    simp [startChunkedUpload, h1, h2, h3, hcl, hsp, processMessages, handleData,
      setProgress]

/-- The zero-byte file of the C10 scenario. -/
def c10file : JSFile := ⟨"e.txt", [], "text/plain"⟩

/-- Sender state of the C10 scenario: connected with the empty file selected. -/
def c10sender : AppState :=
  { initialState with
    status := .CONNECTED
    connSet := true
    connOpen := true
    heartbeatActive := true
    selectedFile := some c10file }

/-- C10 witness: the theorem applied to a concrete empty file and states. -/
theorem C10_empty_file_transfer_witness :
    c10sender.connSet = true ∧ c10sender.connOpen = true ∧
    c10sender.selectedFile = some c10file ∧ c10file.bytes = [] ∧
    ((startChunkedUpload c10sender).sentPackets
      = c10sender.sentPackets ++ [DataPacket.fileStart, DataPacket.fileEnd] ∧
     (startChunkedUpload c10sender).progressLog = c10sender.progressLog ∧
     (startChunkedUpload c10sender).status = .COMPLETED ∧
     (processMessages initialState [DataPacket.fileMeta ⟨"e.txt", 0, "text/plain"⟩,
        DataPacket.fileStart, DataPacket.fileEnd]).status = .COMPLETED ∧
     (processMessages initialState [DataPacket.fileMeta ⟨"e.txt", 0, "text/plain"⟩,
        DataPacket.fileStart, DataPacket.fileEnd]).receivedFileUrl = some [] ∧
     (processMessages initialState [DataPacket.fileMeta ⟨"e.txt", 0, "text/plain"⟩,
        DataPacket.fileStart, DataPacket.fileEnd]).incomingMeta
       = some ⟨"e.txt", 0, "text/plain"⟩) :=
  ⟨rfl, rfl, rfl, rfl,
    C10_empty_file_transfer c10sender initialState c10file
      "e.txt" "text/plain" rfl rfl rfl rfl⟩

end PrivateShare
